import Mathlib

/-!
Shallow embedding of the tenant-provisioning core of the Collective Access
SaaS backend (`src/saas-backend/app`): the data model (`models.py`), the
Kubernetes/Helm clients (`k8s.py`) and the provisioning orchestrator
(`provisioning.py`).

External collaborators (Kubernetes API, Helm CLI, MySQL server, kubectl)
are modelled as explicit outcome oracles passed into each function; the
relational store is an explicit `Db` value threaded through the
orchestrator, with every `commit()` recorded as a snapshot.  A Python
function that can let an exception escape is given the return type
`PyOutcome`, distinguishing a normal return from an uncaught exception.
-/

namespace CASaas

/-- Outcome of running a piece of Python code: either a normal return
value or an exception that escapes the function. -/
inductive PyOutcome (α : Type) where
  | ret (a : α)
  | raised (msg : String)
deriving DecidableEq, Repr

/-- `models.TenantStatus` (models.py lines 12-19). -/
inductive TenantStatus where
  | pending
  | provisioning
  | active
  | failed
  | suspended
  | deleted
deriving DecidableEq, Repr

/-- `models.ProvisioningAction` (models.py lines 22-28). -/
inductive ProvisioningAction where
  | createAction
  | updateAction
  | suspendAction
  | resumeAction
  | deleteAction
deriving DecidableEq, Repr

/-- Row of the `tenants` table (models.py `Tenant`).  The `namespace`
column is rendered `nsName` because `namespace` is a Lean keyword. -/
structure TenantRec where
  id : Nat
  userId : Nat
  nsName : String
  helmReleaseName : String
  domain : String
  plan : String
  status : TenantStatus
  dbName : String
  dbUser : String
  dbPassword : String
  caAdminUsername : String
  caAdminPassword : Option String
  deployedAt : Option Nat
deriving DecidableEq, Repr

/-- Row of the `subscriptions` table (models.py `Subscription`).
`stripe_subscription_id` carries a uniqueness constraint (models.py line 90). -/
structure SubscriptionRec where
  tenantId : Nat
  stripeSubscriptionId : String
  stripeCustomerId : String
  stripePriceId : String
  status : String
deriving DecidableEq, Repr

/-- Row of the `provisioning_logs` table (models.py `ProvisioningLog`). -/
structure LogRec where
  id : Nat
  tenantId : Nat
  action : ProvisioningAction
  status : String
  message : String
  errorDetails : Option String
  stripeEventId : Option String
  completedAt : Option Nat
deriving DecidableEq, Repr

/-- The backend metadata store (PostgreSQL) as seen through the three
tables the orchestrator touches. -/
structure Db where
  tenants : List TenantRec
  subscriptions : List SubscriptionRec
  logs : List LogRec
deriving DecidableEq, Repr

/-- `TenantProvisioner._event_processed` (provisioning.py lines 369-374):
mere existence of a ProvisioningLog row carrying the event id. -/
def event_processed (db : Db) (eid : String) : Bool :=
  db.logs.any (fun l => l.stripeEventId == some eid)

/-- The `query(Tenant).join(Subscription).filter(stripe_subscription_id == sid)`
lookup used twice at the top of `provision_tenant` (lines 62-76). -/
def findTenantBySub (db : Db) (sid : String) : Option TenantRec :=
  match db.subscriptions.find? (fun s => s.stripeSubscriptionId == sid) with
  | none => none
  | some s => db.tenants.find? (fun t => t.id == s.tenantId)

/-- Fresh primary key for a flushed Tenant row (`db.flush()`, line 124). -/
def nextTenantId (db : Db) : Nat :=
  (db.tenants.map (fun t => t.id)).foldr max 0 + 1

/-- Fresh primary key for a ProvisioningLog row. -/
def nextLogId (db : Db) : Nat :=
  (db.logs.map (fun l => l.id)).foldr max 0 + 1

/-- In-place update of a tenant row identified by primary key
(SQLAlchemy attribute assignment followed by commit). -/
def replaceTenant (ts : List TenantRec) (t : TenantRec) : List TenantRec :=
  ts.map (fun x => if x.id == t.id then t else x)

/-- In-place update of a log row identified by primary key. -/
def replaceLog (ls : List LogRec) (l : LogRec) : List LogRec :=
  ls.map (fun x => if x.id == l.id then l else x)

/-- Python `needle in hay` substring test. -/
def strContains (hay needle : String) : Bool :=
  (List.range (hay.data.length + 1)).any
    (fun i => needle.data.isPrefixOf (hay.data.drop i))

/-- Split a character list at every character satisfying `p` (the
separators are dropped; empty segments are kept). -/
def splitOnPred (p : Char → Bool) (l : List Char) : List (List Char) :=
  match l with
  | [] => [[]]
  | x :: xs =>
    let r := splitOnPred p xs
    if p x then [] :: r
    else
      match r with
      | [] => [[x]]
      | y :: ys => (x :: y) :: ys

/-- Python `str.split()` with no argument: split on whitespace, dropping
empty tokens. -/
def splitWs (s : String) : List String :=
  ((splitOnPred (fun c => c.isWhitespace) s.data).map
    (fun l => String.mk l)).filter (fun t => t ≠ "")

/-- Python `str.splitlines()` for newline-separated output. -/
def linesOf (s : String) : List String :=
  (splitOnPred (fun c => c = (Char.ofNat 10)) s.data).map (fun l => String.mk l)

/-- ASCII lowercasing of one character (the credential marker scanned for
is plain ASCII). -/
def lowerChar (c : Char) : Char :=
  if 65 ≤ c.toNat ∧ c.toNat ≤ 90 then Char.ofNat (c.toNat + 32) else c

/-- Python `str.lower()` restricted to ASCII letters. -/
def lowerStr (s : String) : String := String.mk (s.data.map lowerChar)

/-- Python `str.strip()`: drop leading and trailing whitespace. -/
def stripWs (s : String) : String :=
  String.mk
    (((s.data.dropWhile (fun c => c.isWhitespace)).reverse.dropWhile
      (fun c => c.isWhitespace)).reverse)

/-! ## Cluster client (`k8s.py`, `KubernetesManager`) -/

/-- Outcome of the Kubernetes `create_namespace` API call: success, or an
`ApiException` carrying an HTTP status code. -/
inductive NsCreateOutcome where
  | success
  | apiError (status : Nat)
deriving DecidableEq, Repr

/-- `KubernetesManager.create_namespace` (k8s.py lines 39-59): returns
`true` on success, treats an ApiException with status 409 (conflict:
already exists) as success, returns `false` on any other ApiException. -/
def create_namespace (o : NsCreateOutcome) : Bool :=
  match o with
  | .success => true
  | .apiError status => status == 409

/-- Outcome of the Kubernetes `read_namespace` API call. -/
inductive NsReadOutcome where
  | found
  | apiError (status : Nat)
deriving DecidableEq, Repr

/-- `KubernetesManager.namespace_exists` (k8s.py lines 61-69): `true` when
the read succeeds, `false` on a 404 and on any other ApiException. -/
def namespace_exists (o : NsReadOutcome) : Bool :=
  match o with
  | .found => true
  | .apiError _ => false

/-! ## Release manager client (`k8s.py`, `HelmManager`) -/

/-- Result of one `subprocess.run` of a helm command: normal exit with
stdout, or a non-zero exit carrying stderr (`CalledProcessError` when the
call was made with `check=True`). -/
inductive ProcResult where
  | ok (stdout : String)
  | err (stderr : String)
deriving DecidableEq, Repr

/-- The stale-lock failure signature tested against stderr
(k8s.py line 168). -/
def lockInProgressMsg : String :=
  "another operation (install/upgrade/rollback) is in progress"

/-- Behaviour of the helm CLI for one `install_tenant` invocation: the
first `helm upgrade --install` run, and — consulted only on the lock
recovery path — the `helm history` result (already JSON-decoded into the
listed revision numbers; a `.error` means the subprocess itself failed and,
having been run with `check=True`, raised), the `helm rollback` result, and
the retried install. -/
structure HelmCalls where
  firstInstall : ProcResult
  history : Except String (List Nat)
  rollback : Except String Unit
  retryInstall : ProcResult
deriving Repr

/-- Trace entries for the helm sub-commands issued by `install_tenant`. -/
inductive HelmCall where
  | install
  | historyQuery
  | rollbackTo (rev : Nat)
  | retry
deriving DecidableEq, Repr

/-- `HelmManager.install_tenant` (k8s.py lines 107-190), as a function of
the helm CLI behaviour.  Mirrors the source control flow:
* first install succeeds → return `(True, stdout)`;
* first install fails and stderr does *not* contain the lock signature →
  return `(False, stderr)`;
* stderr contains the lock signature → run `helm history` (`check=True`:
  a failure raises out of the function), take `json[-1]["revision"]`
  (an empty history list raises IndexError), run `helm rollback`
  (`check=True`), then retry the install once with `check=True` — a retry
  failure therefore raises `CalledProcessError` out of the function
  instead of being returned as `(False, stderr)`. -/
def install_tenant (w : HelmCalls) : PyOutcome (Bool × String) × List HelmCall :=
  match w.firstInstall with
  | .ok out => (.ret (true, out), [.install])
  | .err stderr =>
    if strContains stderr lockInProgressMsg then
      match w.history with
      | .error e => (.raised e, [.install, .historyQuery])
      | .ok revs =>
        match revs.getLast? with
        | none => (.raised ("IndexError: list index out of range"),
                   [.install, .historyQuery])
        | some lastRev =>
          match w.rollback with
          | .error e => (.raised e, [.install, .historyQuery, .rollbackTo lastRev])
          | .ok _ =>
            match w.retryInstall with
            | .ok out => (.ret (true, out),
                          [.install, .historyQuery, .rollbackTo lastRev, .retry])
            | .err e2 => (.raised ("CalledProcessError: " ++ e2),
                          [.install, .historyQuery, .rollbackTo lastRev, .retry])
    else
      (.ret (false, stderr), [.install])

/-- `HelmManager.uninstall_tenant` (k8s.py lines 192-207): a plain
subprocess run without `check`, returning `(ok, output)` from the exit
status. -/
def uninstall_tenant (r : ProcResult) : Bool × String :=
  match r with
  | .ok out => (true, out)
  | .err stderr => (false, stderr)

/-! ## External-call oracle for one orchestration attempt -/

/-- Behaviour of every external collaborator consulted during one pass of
the provisioning steps: the Kubernetes namespace read/create calls, the
MySQL existence check and creation (`_create_database` catches its own
exceptions and returns a boolean, provisioning.py lines 292-310), the helm
release existence check and install behaviour, and the two kubectl calls of
the CA installer (`.error` models a subprocess exception such as a timeout,
caught by the installer's blanket `except`). -/
structure StepWorld where
  nsRead : NsReadOutcome
  nsCreateOutcome : NsCreateOutcome
  dbExists : Bool
  dbCreateOk : Bool
  releaseExists : Bool
  helm : HelmCalls
  podStdout : Except String String
  execResult : Except String (Int × String)
deriving Repr

/-- Trace of external calls issued by the orchestrator (existence checks
included), used to state "no external calls" and "no step re-done". -/
inductive ExtCall where
  | nsCheck (ns : String)
  | nsCreate (ns : String)
  | dbCheck (name : String)
  | dbCreate (name user : String)
  | helmCheck (rel ns : String)
  | helmRun (rel ns dom plan dbn dbu app : String) (sub : List HelmCall)
  | podLookup (ns sel : String)
  | podExec (ns pod : String)
deriving DecidableEq, Repr

/-- `TenantProvisioner._ensure_namespace` (provisioning.py lines 226-230):
create only when absent; raise `Exception("Failed to create namespace")`
when creation reports failure. -/
def ensure_namespace (w : StepWorld) (ns : String) :
    Except String Unit × List ExtCall :=
  if namespace_exists w.nsRead then (.ok (), [.nsCheck ns])
  else if create_namespace w.nsCreateOutcome then
    (.ok (), [.nsCheck ns, .nsCreate ns])
  else
    (.error ("Failed to create namespace"), [.nsCheck ns, .nsCreate ns])

/-- `TenantProvisioner._ensure_database` (provisioning.py lines 232-236):
skip entirely when the database already exists. -/
def ensure_database (w : StepWorld) (dbn dbu : String) :
    Except String Unit × List ExtCall :=
  if w.dbExists then (.ok (), [.dbCheck dbn])
  else if w.dbCreateOk then (.ok (), [.dbCheck dbn, .dbCreate dbn dbu])
  else
    (.error ("Failed to create tenant database " ++ dbn),
     [.dbCheck dbn, .dbCreate dbn dbu])

/-- `TenantProvisioner._ensure_helm_release` (provisioning.py lines
238-268): skip when the release already exists; otherwise run
`HelmManager.install_tenant`.  A `(False, msg)` result raises
`Exception("Helm install failed: " + msg)`; an exception escaping
`install_tenant` (the lock-recovery retry path, `check=True`) propagates
unchanged.  Both are exceptions in flight towards the orchestrator's
handler, modelled as `.error`. -/
def ensure_helm_release (w : StepWorld)
    (rel ns dom plan dbn dbu app : String) :
    Except String Unit × List ExtCall :=
  if w.releaseExists then (.ok (), [.helmCheck rel ns])
  else
    let r := install_tenant w.helm
    let calls := [ExtCall.helmCheck rel ns, .helmRun rel ns dom plan dbn dbu app r.2]
    match r.1 with
    | .ret (true, _) => (.ok (), calls)
    | .ret (false, msg) => (.error ("Helm install failed: " ++ msg), calls)
    | .raised m => (.error m, calls)

/-! ## Instance installer runner -/

/-- Scan of the installer stdout (provisioning.py lines 355-358): the
first line whose lowercasing contains `"password"` yields its last
whitespace-delimited token (`line.split()[-1]`); no such line yields
`None`. -/
def scanInstallerOutput (stdout : String) : Option String :=
  match (linesOf stdout).find?
      (fun l => strContains (lowerStr l) ("password")) with
  | some line => (splitWs line).getLast?
  | none => none

/-- `TenantProvisioner._run_ca_installer` (provisioning.py lines 316-362):
look up the pod by label selector; an empty name, a non-zero exit of the
in-pod command, or any exception (both kubectl runs have timeouts) yields
`None`, never an exception — the whole body sits in a blanket
`try/except` returning `None`. -/
def run_ca_installer (w : StepWorld) (ns tenantName : String) :
    Option String × List ExtCall :=
  let sel := "app=" ++ tenantName
  match w.podStdout with
  | .error _ => (none, [.podLookup ns sel])
  | .ok out =>
    let podName := stripWs out
    if podName == "" then (none, [.podLookup ns sel])
    else
      match w.execResult with
      | .error _ => (none, [.podLookup ns sel, .podExec ns podName])
      | .ok (rc, stdout) =>
        if rc ≠ 0 then (none, [.podLookup ns sel, .podExec ns podName])
        else (scanInstallerOutput stdout, [.podLookup ns sel, .podExec ns podName])

/-! ## Provisioning orchestrator (`provisioning.py`, `TenantProvisioner`) -/

/-- The configuration fields consulted by the orchestrator's identity
generation (config.py): `KUBERNETES_NAMESPACE_PREFIX` (rendered
`namespaceStem`) and `BASE_DOMAIN`. -/
structure Settings where
  namespaceStem : String
  baseDomain : String
deriving DecidableEq, Repr

/-- The config.py default values of those fields. -/
def defaultSettings : Settings :=
  { namespaceStem := "tenant", baseDomain := "yoursaas.com" }

/-- The arguments of one `provision_tenant` call (a provisioning intent). -/
structure Intent where
  userId : Nat
  email : String
  plan : String
  stripeSubscriptionId : String
  stripeCustomerId : String
  stripeEventId : Option String
deriving DecidableEq, Repr

/-- Result of one `provision_tenant` call: the Python outcome (the normal
return is the `(tenant, error)` pair, line 51), the final state of the
store, every committed snapshot in order, and the external calls issued. -/
structure ProvisionOut where
  result : PyOutcome (Option TenantRec × Option String)
  db : Db
  commits : List Db
  calls : List ExtCall
deriving DecidableEq, Repr

/-- The TypeError Python raises at provisioning.py line 206: the resume
path invokes `_ensure_helm_release` with 7 positional arguments while the
method (line 238) declares 8 required parameters — `ca_app_name` has no
default — so argument binding fails before the method body runs. -/
def resumeHelmTypeError : String :=
  "TypeError: _ensure_helm_release missing 1 required positional argument: ca_app_name"

/-- The IntegrityError raised by the commit at provisioning.py line 147
when the Subscription insert violates the unique constraint on
`stripe_subscription_id` (models.py line 90). -/
def integrityErrorMsg : String :=
  "IntegrityError: duplicate key value violates unique constraint on subscriptions.stripe_subscription_id"

/-- The `except` branch of `_resume_provisioning` (provisioning.py lines
217-220): mark the tenant `failed`, commit, return the error.  No
ProvisioningLog row is created, closed or touched on this path. -/
def resumeFail (db : Db) (t : TenantRec) (e : String) (calls : List ExtCall) :
    ProvisionOut :=
  let tF := { t with status := TenantStatus.failed }
  let dbF := { db with tenants := replaceTenant db.tenants tF }
  { result := .ret (some tF, some e), db := dbF, commits := [dbF], calls := calls }

/-- `TenantProvisioner._resume_provisioning` (provisioning.py lines
202-220). -/
def resume_provisioning (w : StepWorld) (now : Nat) (db : Db)
    (t : TenantRec) : ProvisionOut :=
  let s1 := ensure_namespace w t.nsName
  match s1.1 with
  | .error e => resumeFail db t e s1.2
  | .ok _ =>
    let s2 := ensure_database w t.dbName t.dbUser
    match s2.1 with
    | .error e => resumeFail db t e (s1.2 ++ s2.2)
    | .ok _ =>
      -- line 206 calls `_ensure_helm_release(release, namespace, domain,
      -- plan, db_name, db_user, db_password)` — 7 positional arguments for
      -- 8 required parameters — so Python raises TypeError at the call
      -- site, before even the release-existence check can run
      let s3 : Except String Unit := .error resumeHelmTypeError
      match s3 with
      | .error e => resumeFail db t e (s1.2 ++ s2.2)
      | .ok _ =>
        let tA := { t with status := TenantStatus.active, deployedAt := some now }
        let dbA := { db with tenants := replaceTenant db.tenants tA }
        { result := .ret (some tA, none), db := dbA, commits := [dbA],
          calls := s1.2 ++ s2.2 }

/-- The `except` branch of the new-tenant try block (provisioning.py lines
187-196): mark the tenant `failed`, close the log `failed` with the error
detail, commit, and return `(tenant, str(e))`.  Nothing already applied is
reverted: no further external call is issued. -/
def newFail (dbB : Db) (t1 : TenantRec) (log0 : LogRec) (e : String)
    (now : Nat) (calls : List ExtCall) (prior : List Db) : ProvisionOut :=
  let tF := { t1 with status := TenantStatus.failed }
  let logF := { log0 with
                status := "failed", errorDetails := some e,
                completedAt := some now }
  let dbF := { dbB with
               tenants := replaceTenant dbB.tenants tF,
               logs := replaceLog dbB.logs logF }
  { result := .ret (some tF, some e), db := dbF, commits := prior ++ [dbF],
    calls := calls }

/-- The body of the `try` block of the new-tenant path (provisioning.py
lines 152-172): namespace, database and helm-release steps in order, then
the CA installer (whose `Option` result is not a failure mode).  An error
is the first step exception together with the external calls made so far;
success carries the installer result and all calls made. -/
def try_steps (w : StepWorld) (ns rel dom plan dbn dbu app : String) :
    Except (String × List ExtCall) (Option String × List ExtCall) :=
  match ensure_namespace w ns with
  | (.error e, c1) => .error (e, c1)
  | (.ok _, c1) =>
    match ensure_database w dbn dbu with
    | (.error e, c2) => .error (e, c1 ++ c2)
    | (.ok _, c2) =>
      match ensure_helm_release w rel ns dom plan dbn dbu app with
      | (.error e, c3) => .error (e, c1 ++ c2 ++ c3)
      | (.ok _, c3) =>
        match run_ca_installer w ns rel with
        | (pw, c4) => .ok (pw, c1 ++ c2 ++ c3 ++ c4)

/-- Completion of the new-tenant path from the try-block outcome
(provisioning.py lines 174-196): on success mark the tenant `active`,
stamp the deployment time, store the generated credential or the sentinel,
close the log `completed` and commit; on exception run the handler
`newFail`. -/
def finish_flow (now : Nat) (dbA dbB : Db) (t1 : TenantRec) (log0 : LogRec)
    (rel : String)
    (r : Except (String × List ExtCall) (Option String × List ExtCall)) :
    ProvisionOut :=
  match r with
  | .error (e, cs) => newFail dbB t1 log0 e now cs [dbA, dbB]
  | .ok (pw, cs) =>
    let caPw := match pw with
      | some p => p
      | none => "Installer not completed"
    let t2 := { t1 with
                status := TenantStatus.active,
                deployedAt := some now, caAdminPassword := some caPw }
    let log1 := { log0 with
                  status := "completed",
                  message := "Successfully provisioned " ++ rel,
                  completedAt := some now }
    let dbC := { dbB with
                 tenants := replaceTenant dbB.tenants t2,
                 logs := replaceLog dbB.logs log1 }
    { result := .ret (some t2, none), db := dbC,
      commits := [dbA, dbB, dbC], calls := cs }

/-- The new-tenant branch of `provision_tenant` (provisioning.py lines
85-196): identity generation from a fresh random suffix, record creation
with two checkpoint commits, then the four external steps under the try
block.  `suffix` and `dbPw` stand for the `uuid4`-generated values;
`now` for `datetime.utcnow()`; `concurrent` for Subscription rows
committed by a concurrent transaction between this attempt's
existing-tenant read and its first commit. -/
def new_tenant_flow (st : Settings) (w : StepWorld) (suffix dbPw : String)
    (now : Nat) (concurrent : List SubscriptionRec) (db : Db) (i : Intent) :
    ProvisionOut :=
  let ns := st.namespaceStem ++ "-" ++ suffix
  let rel := ns
  let app := "tenant_" ++ suffix
  let dom := ns ++ "." ++ st.baseDomain
  let dbn := "ca_" ++ suffix
  let dbu := "ca_" ++ suffix
  let tid := nextTenantId db
  let t0 : TenantRec :=
    { id := tid, userId := i.userId, nsName := ns, helmReleaseName := rel,
      domain := dom, plan := i.plan, status := .pending, dbName := dbn,
      dbUser := dbu, dbPassword := dbPw, caAdminUsername := "administrator",
      caAdminPassword := none, deployedAt := none }
  let sub : SubscriptionRec :=
    { tenantId := tid, stripeSubscriptionId := i.stripeSubscriptionId,
      stripeCustomerId := i.stripeCustomerId, stripePriceId := "",
      status := "active" }
  let log0 : LogRec :=
    { id := nextLogId db, tenantId := tid, action := .createAction,
      status := "started", message := "Starting provisioning for " ++ rel,
      errorDetails := none, stripeEventId := i.stripeEventId,
      completedAt := none }
  -- the commit at line 147 INSERTs the Subscription row; a duplicate
  -- stripe_subscription_id — necessarily from a concurrently committed row,
  -- since an already-committed one would have been found by the
  -- existing-tenant lookup — violates the unique constraint and raises
  -- IntegrityError, which no handler in provision_tenant catches
  if (db.subscriptions ++ concurrent).any
      (fun s => s.stripeSubscriptionId == i.stripeSubscriptionId) then
    { result := .raised integrityErrorMsg,
      db := { db with subscriptions := db.subscriptions ++ concurrent },
      commits := [], calls := [] }
  else
    let dbA : Db := { tenants := db.tenants ++ [t0],
                      subscriptions := db.subscriptions ++ concurrent ++ [sub],
                      logs := db.logs ++ [log0] }
    let t1 := { t0 with status := TenantStatus.provisioning }
    let dbB := { dbA with tenants := replaceTenant dbA.tenants t1 }
    finish_flow now dbA dbB t1 log0 rel
      (try_steps w ns rel dom i.plan dbn dbu app)

/-- The guard of the idempotency short-circuit (provisioning.py line 60):
`stripe_event_id and self._event_processed(stripe_event_id)`. -/
def dedupHit (db : Db) (i : Intent) : Bool :=
  match i.stripeEventId with
  | some eid => event_processed db eid
  | none => false

/-- `TenantProvisioner.provision_tenant` (provisioning.py lines 43-196):
event-id dedup short-circuit, existing-tenant check (return unchanged when
`active`, resume otherwise), else the new-tenant flow. -/
def provision_tenant (st : Settings) (w : StepWorld) (suffix dbPw : String)
    (now : Nat) (concurrent : List SubscriptionRec) (db : Db) (i : Intent) :
    ProvisionOut :=
  if dedupHit db i then
    { result := .ret (findTenantBySub db i.stripeSubscriptionId, none),
      db := db, commits := [], calls := [] }
  else
    match findTenantBySub db i.stripeSubscriptionId with
    | some existing =>
      if existing.status = TenantStatus.active then
        { result := .ret (some existing, none), db := db, commits := [],
          calls := [] }
      else
        resume_provisioning w now db existing
    | none => new_tenant_flow st w suffix dbPw now concurrent db i

/-! ## Methods defined on `TenantProvisioner` -/

/-- The complete list of methods the class `TenantProvisioner` defines
(provisioning.py lines 28-374). -/
def tenantProvisionerMethods : List String :=
  ["__init__", "provision_tenant", "_resume_provisioning",
   "_ensure_namespace", "_ensure_database", "_ensure_helm_release",
   "_database_exists", "_create_database", "_run_ca_installer",
   "_event_processed"]

/-- Python attribute lookup on a `TenantProvisioner` instance: accessing a
name the class does not define raises AttributeError at the call site.
This is what the endpoint handlers in main.py (lines 194-266) and the
webhook handlers in stripe_webhooks.py execute when they invoke
`provisioner.delete_tenant`, `provisioner.suspend_tenant` or
`provisioner.resume_tenant`. -/
def callProvisionerMethod (m : String) : PyOutcome Unit :=
  if tenantProvisionerMethods.contains m then .ret ()
  else .raised ("AttributeError: TenantProvisioner object has no attribute " ++ m)

/-! ## State-level view of the external resources

For the idempotence properties the three collaborators are run against an
honestly answering world derived from an explicit resource state: an
existence check answers from the state, a creation adds to the state (the
Kubernetes API answers 409 for a namespace that already exists). -/

/-- The externally held resources one orchestration attempt touches. -/
structure ResState where
  namespaces : List String
  databases : List String
  releases : List (String × String)
deriving DecidableEq, Repr

/-- The collaborator behaviour determined by resource state `s`, for an
attempt concerning namespace `ns`, database `dbn` and release
`(rel, relNs)`: existence checks answer from `s`, creating an
already-present namespace yields the 409 conflict, creations succeed, and
a fresh helm install succeeds with output `out`. -/
def honestWorld (s : ResState) (ns dbn rel relNs out : String) : StepWorld :=
  { nsRead := if s.namespaces.contains ns then .found else .apiError 404,
    nsCreateOutcome := if s.namespaces.contains ns then .apiError 409 else .success,
    dbExists := s.databases.contains dbn,
    dbCreateOk := true,
    releaseExists := s.releases.contains (rel, relNs),
    helm := { firstInstall := .ok out, history := .ok [], rollback := .ok (),
              retryInstall := .ok out },
    podStdout := .error ("unused"), execResult := .error ("unused") }

/-- Effect of `_ensure_namespace` on the resource state: the namespace is
created exactly when absent. -/
def ensureNamespaceState (s : ResState) (ns : String) : ResState :=
  if s.namespaces.contains ns then s
  else { s with namespaces := ns :: s.namespaces }

/-- Effect of `_ensure_database` on the resource state. -/
def ensureDatabaseState (s : ResState) (dbn : String) : ResState :=
  if s.databases.contains dbn then s
  else { s with databases := dbn :: s.databases }

/-- Effect of `_ensure_helm_release` on the resource state. -/
def ensureReleaseState (s : ResState) (rel relNs : String) : ResState :=
  if s.releases.contains (rel, relNs) then s
  else { s with releases := (rel, relNs) :: s.releases }

/-! ## Concrete fixtures used by witnesses and counterexamples -/

/-- A world in which every collaborator call succeeds: the namespace is
absent and creation succeeds, the database is absent and creation
succeeds, no release exists and the install succeeds, the pod is found and
the installer prints a password line. -/
def okWorld : StepWorld :=
  { nsRead := .apiError 404, nsCreateOutcome := .success,
    dbExists := false, dbCreateOk := true, releaseExists := false,
    helm := { firstInstall := .ok ("deployed"), history := .ok [],
              rollback := .ok (), retryInstall := .ok ("deployed") },
    podStdout := .ok ("pod-1"),
    execResult := .ok (0, "admin password s3cret") }

/-- An existing tenant whose earlier provisioning attempt failed. -/
def tenant1 : TenantRec :=
  { id := 1, userId := 7, nsName := "tenant-aaaa0001",
    helmReleaseName := "tenant-aaaa0001",
    domain := "tenant-aaaa0001.yoursaas.com", plan := "starter",
    status := .failed, dbName := "ca_aaaa0001", dbUser := "ca_aaaa0001",
    dbPassword := "pw", caAdminUsername := "administrator",
    caAdminPassword := none, deployedAt := none }

/-- The subscription owning `tenant1`. -/
def sub1 : SubscriptionRec :=
  { tenantId := 1, stripeSubscriptionId := "sub_1",
    stripeCustomerId := "cus_1", stripePriceId := "", status := "active" }

/-- A store holding one failed tenant and its subscription. -/
def failedTenantDb : Db :=
  { tenants := [tenant1], subscriptions := [sub1], logs := [] }

/-- The intent re-delivering the subscription of `tenant1`, without an
event id. -/
def intent1 : Intent :=
  { userId := 7, email := "a@b.co", plan := "starter",
    stripeSubscriptionId := "sub_1", stripeCustomerId := "cus_1",
    stripeEventId := none }

/-- A tenant in the terminal `deleted` status. -/
def deletedTenant : TenantRec :=
  { tenant1 with
    id := 2, nsName := "tenant-cccc0003",
    helmReleaseName := "tenant-cccc0003",
    domain := "tenant-cccc0003.yoursaas.com", status := .deleted }

/-- The subscription owning `deletedTenant`. -/
def sub2 : SubscriptionRec :=
  { tenantId := 2, stripeSubscriptionId := "sub_2",
    stripeCustomerId := "cus_2", stripePriceId := "", status := "active" }

/-- A store holding one deleted tenant and its subscription. -/
def deletedTenantDb : Db :=
  { tenants := [deletedTenant], subscriptions := [sub2], logs := [] }

/-- The intent re-delivering the subscription of `deletedTenant`. -/
def intent2 : Intent :=
  { userId := 7, email := "a@b.co", plan := "starter",
    stripeSubscriptionId := "sub_2", stripeCustomerId := "cus_2",
    stripeEventId := none }

/-! ## Shared lemmas -/

/-- The resume path can never reach its success continuation: whatever the
collaborators do, `_resume_provisioning` returns the tenant marked
`failed` together with an error, and the only store mutation is that
status flip — in particular `provisioning_logs` is untouched. -/
theorem resume_returns_failed (w : StepWorld) (now : Nat) (db : Db)
    (t : TenantRec) :
    ∃ e, (resume_provisioning w now db t).result
        = .ret (some { t with status := TenantStatus.failed }, some e)
      ∧ (resume_provisioning w now db t).db
        = { db with tenants :=
              replaceTenant db.tenants { t with status := TenantStatus.failed } } := by
  unfold resume_provisioning
  cases h1 : (ensure_namespace w t.nsName).1 with
  | error e1 =>
    refine ⟨e1, ?_, ?_⟩ <;> simp [h1, resumeFail]
  | ok u1 =>
    cases h2 : (ensure_database w t.dbName t.dbUser).1 with
    | error e2 =>
      refine ⟨e2, ?_, ?_⟩ <;> simp [h1, h2, resumeFail]
    | ok u2 =>
      refine ⟨resumeHelmTypeError, ?_, ?_⟩ <;> simp [h1, h2, resumeFail]

/-- An empty metadata store. -/
def emptyDb : Db := { tenants := [], subscriptions := [], logs := [] }

/-- Helm behaviour: first install hits the stale lock, history and
rollback succeed, the retried install fails. -/
def lockedHelm : HelmCalls :=
  { firstInstall := .err lockInProgressMsg, history := .ok [3],
    rollback := .ok (), retryInstall := .err ("boom: chart invalid") }

/-- Helm behaviour: first install hits the stale lock, history and
rollback succeed, the retried install succeeds. -/
def lockedHelmOk : HelmCalls :=
  { firstInstall := .err lockInProgressMsg, history := .ok [2],
    rollback := .ok (), retryInstall := .ok ("recovered") }

/-- A world in which namespace creation fails hard (HTTP 500), so the very
first provisioning step raises. -/
def nsFailWorld : StepWorld :=
  { okWorld with nsRead := .apiError 404, nsCreateOutcome := .apiError 500 }

/-! ## Theorems for the claims -/

/-- C5: the spec and the claim promise lifecycle commands
`Suspend`/`Resume`/`Delete` on the provisioner, and the API endpoints
(main.py lines 194-266) and webhook handlers (stripe_webhooks.py) do call
`provisioner.suspend_tenant`, `provisioner.resume_tenant` and
`provisioner.delete_tenant` — but the class `TenantProvisioner` defines no
such methods, so every one of those calls raises AttributeError.  The code
contradicts its own callers: this is a code bug, evaluated here. -/
theorem C5_lifecycle_methods_missing :
    callProvisionerMethod ("suspend_tenant")
        = .raised ("AttributeError: TenantProvisioner object has no attribute suspend_tenant")
    ∧ callProvisionerMethod ("resume_tenant")
        = .raised ("AttributeError: TenantProvisioner object has no attribute resume_tenant")
    ∧ callProvisionerMethod ("delete_tenant")
        = .raised ("AttributeError: TenantProvisioner object has no attribute delete_tenant")
    ∧ tenantProvisionerMethods.contains ("suspend_tenant") = false
    ∧ tenantProvisionerMethods.contains ("resume_tenant") = false
    ∧ tenantProvisionerMethods.contains ("delete_tenant") = false := by
  decide

/-- C3: the claim says the resume path, when every collaborator call
succeeds, marks the tenant `active` with a fresh deployment timestamp and
returns no error.  The code cannot do this: provisioning.py line 206 calls
`_ensure_helm_release` with 7 positional arguments against 8 required
parameters, so Python raises TypeError and the handler marks the tenant
`failed` — for every world, and in particular for the all-healthy world
`okWorld` at the failing input `tenant1`. -/
theorem C3_resume_always_fails :
    (∀ (w : StepWorld) (now : Nat) (db : Db) (t : TenantRec),
      ∃ e, (resume_provisioning w now db t).result
          = .ret (some { t with status := TenantStatus.failed }, some e))
    ∧ (resume_provisioning okWorld 5 failedTenantDb tenant1).result
        = .ret (some { tenant1 with status := TenantStatus.failed },
                some resumeHelmTypeError) := by
  constructor
  · intro w now db t
    obtain ⟨e, he, -⟩ := resume_returns_failed w now db t
    exact ⟨e, he⟩
  · decide

/-- C9 counterexample: a Tenant in the terminal `deleted` status, fed back
into `provision_tenant` through its subscription, is routed into the
resume path and comes out with status `failed` — the orchestrator does
transition a deleted tenant to another status, contradicting the claim. -/
theorem C9_counterexample :
    deletedTenant.status = TenantStatus.deleted
    ∧ (provision_tenant defaultSettings okWorld ("b0b0b0b0") ("pw2") 6 []
        deletedTenantDb intent2).result
        = .ret (some { deletedTenant with status := TenantStatus.failed },
                some resumeHelmTypeError)
    ∧ (provision_tenant defaultSettings okWorld ("b0b0b0b0") ("pw2") 6 []
        deletedTenantDb intent2).db.tenants
        = [{ deletedTenant with status := TenantStatus.failed }] := by
  refine ⟨rfl, ?_, ?_⟩ <;> decide

/-- C9 (amended): `deleted` is not terminal in the code.  Whenever the
dedup guard misses and the subscription lookup finds an existing tenant in
status `deleted`, `provision_tenant` re-enters provisioning via the resume
path and mutates the tenant status: the attempt ends `failed` (the resume
path always fails), so the tenant leaves the `deleted` status. -/
theorem C9_deleted_reentered :
    ∀ (st : Settings) (w : StepWorld) (suffix dbPw : String) (now : Nat)
      (concurrent : List SubscriptionRec) (db : Db) (i : Intent) (t : TenantRec),
      dedupHit db i = false →
      findTenantBySub db i.stripeSubscriptionId = some t →
      t.status = TenantStatus.deleted →
      ∃ e, (provision_tenant st w suffix dbPw now concurrent db i).result
          = .ret (some { t with status := TenantStatus.failed }, some e) := by
  intro st w suffix dbPw now concurrent db i t hg hf hs
  unfold provision_tenant
  obtain ⟨e, he, -⟩ := resume_returns_failed w now db t
  refine ⟨e, ?_⟩
  simp [hg, hf, hs, he]

/-- C9 witness: the amended theorem applied at the deleted-tenant
fixture. -/
theorem C9_deleted_reentered_witness :
    dedupHit deletedTenantDb intent2 = false
    ∧ findTenantBySub deletedTenantDb intent2.stripeSubscriptionId = some deletedTenant
    ∧ deletedTenant.status = TenantStatus.deleted
    ∧ ∃ e, (provision_tenant defaultSettings okWorld ("b1b1b1b1") ("pw3") 6 []
        deletedTenantDb intent2).result
        = .ret (some { deletedTenant with status := TenantStatus.failed }, some e) :=
  ⟨by decide, by decide, rfl,
    C9_deleted_reentered defaultSettings okWorld ("b1b1b1b1") ("pw3") 6 []
      deletedTenantDb intent2 deletedTenant (by decide) (by decide) rfl⟩

/-- C4 counterexample: with an empty store and a Subscription row for the
same `stripe_subscription_id` committed concurrently between the
existing-tenant read and the first commit, `provision_tenant` raises
IntegrityError out of the call instead of re-reading and returning the
existing record — the persistence conflict is surfaced as a hard error,
contradicting the claim. -/
theorem C4_counterexample :
    (provision_tenant defaultSettings okWorld ("deadbeef") ("pw") 3 [sub1]
        emptyDb intent1).result
      = .raised integrityErrorMsg
    ∧ (provision_tenant defaultSettings okWorld ("deadbeef") ("pw") 3 [sub1]
        emptyDb intent1).calls = [] := by
  refine ⟨?_, ?_⟩ <;> decide

/-- C4 (amended): the uniqueness constraint on the subscription reference
does make the concurrent duplicate insert fail — but `provision_tenant`
has no handler for it: whenever the duplicate is present at commit time,
the IntegrityError escapes `provision_tenant` uncaught, and no re-read of
the existing record takes place (no external call is made either). -/
theorem C4_conflict_raises :
    ∀ (st : Settings) (w : StepWorld) (suffix dbPw : String) (now : Nat)
      (concurrent : List SubscriptionRec) (db : Db) (i : Intent),
      dedupHit db i = false →
      findTenantBySub db i.stripeSubscriptionId = none →
      (db.subscriptions ++ concurrent).any
          (fun s => s.stripeSubscriptionId == i.stripeSubscriptionId) = true →
      provision_tenant st w suffix dbPw now concurrent db i
        = { result := .raised integrityErrorMsg,
            db := { db with subscriptions := db.subscriptions ++ concurrent },
            commits := [], calls := [] } := by
  intro st w suffix dbPw now concurrent db i hg hf hdup
  unfold provision_tenant new_tenant_flow
  simp [hg, hf, hdup]

/-- C4 witness: the amended theorem applied at the concurrent-duplicate
fixture. -/
theorem C4_conflict_raises_witness :
    dedupHit emptyDb intent1 = false
    ∧ findTenantBySub emptyDb intent1.stripeSubscriptionId = none
    ∧ (emptyDb.subscriptions ++ [sub1]).any
        (fun s => s.stripeSubscriptionId == intent1.stripeSubscriptionId) = true
    ∧ provision_tenant defaultSettings okWorld ("deadbee2") ("pw") 3 [sub1]
        emptyDb intent1
      = { result := .raised integrityErrorMsg,
          db := { emptyDb with subscriptions := emptyDb.subscriptions ++ [sub1] },
          commits := [], calls := [] } :=
  ⟨by decide, by decide, by decide,
    C4_conflict_raises defaultSettings okWorld ("deadbee2") ("pw") 3 [sub1]
      emptyDb intent1 (by decide) (by decide) (by decide)⟩

/-- C6 counterexample: when the retried install also fails, the claim says
the failure is surfaced as the `(ok, error)` return of `install_tenant` —
but the retry runs under `check=True` inside the `except` block with no
inner handler, so `install_tenant` raises CalledProcessError instead of
returning. -/
theorem C6_counterexample :
    (install_tenant lockedHelm).1
      = .raised ("CalledProcessError: boom: chart invalid")
    ∧ (install_tenant lockedHelm).2
      = [.install, .historyQuery, .rollbackTo 3, .retry] := by
  refine ⟨?_, ?_⟩ <;> decide

/-- An already-active tenant. -/
def activeTenant : TenantRec :=
  { tenant1 with
    id := 3, nsName := "tenant-dddd0004",
    helmReleaseName := "tenant-dddd0004",
    domain := "tenant-dddd0004.yoursaas.com", status := .active }

/-- The subscription owning `activeTenant`. -/
def sub3 : SubscriptionRec :=
  { tenantId := 3, stripeSubscriptionId := "sub_3",
    stripeCustomerId := "cus_3", stripePriceId := "", status := "active" }

/-- The completed provisioning log of `activeTenant`, recording the
triggering event id. -/
def log3 : LogRec :=
  { id := 1, tenantId := 3, action := .createAction, status := "completed",
    message := "Successfully provisioned tenant-dddd0004",
    errorDetails := none, stripeEventId := some "evt_3", completedAt := some 2 }

/-- A store holding an active tenant whose creating event is recorded. -/
def activeDb : Db :=
  { tenants := [activeTenant], subscriptions := [sub3], logs := [log3] }

/-- Redelivery of the recorded event for `activeTenant`. -/
def intent3 : Intent :=
  { userId := 7, email := "a@b.co", plan := "starter",
    stripeSubscriptionId := "sub_3", stripeCustomerId := "cus_3",
    stripeEventId := some "evt_3" }

/-- The same intent without a triggering event id. -/
def intent3b : Intent := { intent3 with stripeEventId := none }

/-- C2: both short-circuits of `provision_tenant` are pure reads.  When
the supplied event id is already recorded in a ProvisioningLog, the call
returns the tenant found for the subscription with no error; when the
dedup guard misses but the subscription's tenant exists with status
`active`, the call returns it unchanged.  In both cases the store is
returned untouched, nothing is committed, and no external call is
issued. -/
theorem C2_idempotent_short_circuit :
    (∀ (st : Settings) (w : StepWorld) (suffix dbPw : String) (now : Nat)
        (concurrent : List SubscriptionRec) (db : Db) (i : Intent)
        (eid : String) (t : TenantRec),
        i.stripeEventId = some eid → event_processed db eid = true →
        findTenantBySub db i.stripeSubscriptionId = some t →
        provision_tenant st w suffix dbPw now concurrent db i
          = { result := .ret (some t, none), db := db, commits := [], calls := [] })
    ∧ (∀ (st : Settings) (w : StepWorld) (suffix dbPw : String) (now : Nat)
        (concurrent : List SubscriptionRec) (db : Db) (i : Intent)
        (t : TenantRec),
        dedupHit db i = false →
        findTenantBySub db i.stripeSubscriptionId = some t →
        t.status = TenantStatus.active →
        provision_tenant st w suffix dbPw now concurrent db i
          = { result := .ret (some t, none), db := db, commits := [], calls := [] }) := by
  constructor
  · intro st w suffix dbPw now concurrent db i eid t hei hev hf
    unfold provision_tenant
    simp [dedupHit, hei, hev, hf]
  · intro st w suffix dbPw now concurrent db i t hg hf ha
    unfold provision_tenant
    simp [hg, hf, ha]

/-- C2 witness: the theorem applied at the recorded-event fixture and at
the active-tenant fixture. -/
theorem C2_idempotent_short_circuit_witness :
    intent3.stripeEventId = some "evt_3"
    ∧ event_processed activeDb ("evt_3") = true
    ∧ findTenantBySub activeDb intent3.stripeSubscriptionId = some activeTenant
    ∧ provision_tenant defaultSettings okWorld ("e0e0e0e0") ("pw") 4 []
        activeDb intent3
      = { result := .ret (some activeTenant, none), db := activeDb,
          commits := [], calls := [] }
    ∧ dedupHit activeDb intent3b = false
    ∧ activeTenant.status = TenantStatus.active
    ∧ provision_tenant defaultSettings okWorld ("e1e1e1e1") ("pw") 4 []
        activeDb intent3b
      = { result := .ret (some activeTenant, none), db := activeDb,
          commits := [], calls := [] } :=
  ⟨rfl, by decide, by decide,
    C2_idempotent_short_circuit.1 defaultSettings okWorld ("e0e0e0e0") ("pw") 4 []
      activeDb intent3 ("evt_3") activeTenant rfl (by decide) (by decide),
    by decide, rfl,
    C2_idempotent_short_circuit.2 defaultSettings okWorld ("e1e1e1e1") ("pw") 4 []
      activeDb intent3b activeTenant (by decide) (by decide) rfl⟩

/-- Updating log `lF` into a list that contains a row with the same
primary key leaves `lF` present in the result. -/
theorem mem_replaceLog (ls : List LogRec) (l0 lF : LogRec)
    (h : l0 ∈ ls) (hid : l0.id = lF.id) : lF ∈ replaceLog ls lF := by
  unfold replaceLog
  exact List.mem_map.mpr ⟨l0, h, by simp [hid]⟩

/-- Whatever the try block does, the completion of the new-tenant path
returns normally; and when it returns an error, the returned tenant is
marked `failed` and a log row closed `failed` with that error detail is in
the store. -/
theorem finish_flow_inv (now : Nat) (dbA dbB : Db) (t1 : TenantRec)
    (log0 : LogRec) (rel : String)
    (r : Except (String × List ExtCall) (Option String × List ExtCall))
    (hlog : log0 ∈ dbB.logs) :
    (∃ t oe, (finish_flow now dbA dbB t1 log0 rel r).result = .ret (some t, oe))
    ∧ (∀ t e,
        (finish_flow now dbA dbB t1 log0 rel r).result = .ret (some t, some e) →
        t.status = TenantStatus.failed
        ∧ ∃ l, l ∈ (finish_flow now dbA dbB t1 log0 rel r).db.logs
            ∧ l.status = "failed" ∧ l.errorDetails = some e) := by
  cases r with
  | error p =>
    obtain ⟨e0, cs⟩ := p
    constructor
    · exact ⟨_, _, rfl⟩
    · intro t e h
      injection h with hpair
      injection hpair with h1 h2
      injection h1 with h1
      injection h2 with h2
      subst h1; subst h2
      refine ⟨rfl, ?_⟩
      refine ⟨{ log0 with
                status := "failed", errorDetails := some e0,
                completedAt := some now }, ?_, rfl, rfl⟩
      exact mem_replaceLog dbB.logs log0 _ hlog rfl
  | ok p =>
    obtain ⟨pw, cs⟩ := p
    constructor
    · exact ⟨_, none, rfl⟩
    · intro t e h
      injection h with hpair
      injection hpair with h1 h2
      exact Option.noConfusion h2

/-- C1 counterexample: an intent hitting the resume path (existing
non-active tenant) fails — the error is returned and the tenant is marked
`failed` — yet the final store holds no ProvisioningLog row at all, so no
log is closed `failed` with the error detail, contradicting the claim that
every failure closes the ProvisioningLog `failed`. -/
theorem C1_counterexample :
    (provision_tenant defaultSettings okWorld ("abab0005") ("pw") 5 []
        failedTenantDb intent1).result
      = .ret (some { tenant1 with status := TenantStatus.failed },
              some resumeHelmTypeError)
    ∧ (provision_tenant defaultSettings okWorld ("abab0005") ("pw") 5 []
        failedTenantDb intent1).db.logs = [] := by
  refine ⟨?_, ?_⟩ <;> decide

/-- C1 (amended): step failures never escape as exceptions, but the
log-closing half of the claim holds only on the new-tenant path.  On the
new-tenant path (absent a concurrent duplicate subscription insert) the
call returns normally, and any returned error comes with the Tenant marked
`failed` and a ProvisioningLog row closed `failed` carrying the error
detail.  On the resume path the call also returns normally and any failure
marks the Tenant `failed` — but the ProvisioningLog table is left
completely untouched: no row is created or closed for the attempt. -/
theorem C1_failure_handling :
    (∀ (st : Settings) (w : StepWorld) (suffix dbPw : String) (now : Nat)
        (concurrent : List SubscriptionRec) (db : Db) (i : Intent),
        (db.subscriptions ++ concurrent).any
            (fun s => s.stripeSubscriptionId == i.stripeSubscriptionId) = false →
        (∃ t oe, (new_tenant_flow st w suffix dbPw now concurrent db i).result
            = .ret (some t, oe))
        ∧ (∀ t e,
            (new_tenant_flow st w suffix dbPw now concurrent db i).result
              = .ret (some t, some e) →
            t.status = TenantStatus.failed
            ∧ ∃ l, l ∈ (new_tenant_flow st w suffix dbPw now concurrent db i).db.logs
                ∧ l.status = "failed" ∧ l.errorDetails = some e))
    ∧ (∀ (w : StepWorld) (now : Nat) (db : Db) (t : TenantRec),
        (∃ t2 e, (resume_provisioning w now db t).result
              = .ret (some t2, some e)
            ∧ t2.status = TenantStatus.failed)
        ∧ (resume_provisioning w now db t).db.logs = db.logs) := by
  constructor
  · intro st w suffix dbPw now concurrent db i hdup
    unfold new_tenant_flow
    simp only [hdup, Bool.false_eq_true, if_false]
    exact finish_flow_inv _ _ _ _ _ _ _ (by simp)
  · intro w now db t
    obtain ⟨e, he, hdb⟩ := resume_returns_failed w now db t
    exact ⟨⟨_, e, he, rfl⟩, by rw [hdb]⟩

/-- C1 witness: the amended theorem applied to a new-tenant run whose
first step fails (namespace creation denied), and to a resume run. -/
theorem C1_failure_handling_witness :
    ((emptyDb.subscriptions ++ []).any
        (fun s => s.stripeSubscriptionId == intent1.stripeSubscriptionId) = false)
    ∧ ((∃ t oe, (new_tenant_flow defaultSettings nsFailWorld ("acac0006") ("pw") 5 []
          emptyDb intent1).result = .ret (some t, oe))
       ∧ (∀ t e,
           (new_tenant_flow defaultSettings nsFailWorld ("acac0006") ("pw") 5 []
              emptyDb intent1).result = .ret (some t, some e) →
           t.status = TenantStatus.failed
           ∧ ∃ l, l ∈ (new_tenant_flow defaultSettings nsFailWorld ("acac0006") ("pw") 5 []
                emptyDb intent1).db.logs
               ∧ l.status = "failed" ∧ l.errorDetails = some e))
    ∧ ((∃ t2 e, (resume_provisioning okWorld 5 failedTenantDb tenant1).result
            = .ret (some t2, some e)
          ∧ t2.status = TenantStatus.failed)
       ∧ (resume_provisioning okWorld 5 failedTenantDb tenant1).db.logs
            = failedTenantDb.logs) :=
  ⟨by decide,
    C1_failure_handling.1 defaultSettings nsFailWorld ("acac0006") ("pw") 5 []
      emptyDb intent1 (by decide),
    C1_failure_handling.2 okWorld 5 failedTenantDb tenant1⟩

/-- Helm behaviour: first install fails without the lock signature. -/
def plainFailHelm : HelmCalls :=
  { firstInstall := .err ("chart not found"), history := .ok [],
    rollback := .ok (), retryInstall := .ok ("unused") }

/-- A world whose namespace and database already exist, whose release is
absent, and whose helm CLI shows the stale lock with a failing retry. -/
def lockWorld : StepWorld :=
  { okWorld with
    nsRead := .found, dbExists := true, releaseExists := false,
    helm := lockedHelm }

/-- C6 (amended): on the in-progress-lock signature `install_tenant`
queries the revision history, rolls back to the most recent revision, and
retries the original install exactly once; a successful retry is returned
as success with the retry's output; a clean first install and a non-lock
failure are returned as-is.  But a failing retry is not returned as the
`(ok, error)` result: it raises CalledProcessError out of
`install_tenant`; the orchestrator's handler then catches it, so the
Tenant still ends `failed` with that error recorded in the closed log. -/
theorem C6_lock_recovery :
    (∀ (w : HelmCalls) (out : String), w.firstInstall = .ok out →
        install_tenant w = (.ret (true, out), [.install]))
    ∧ (∀ (w : HelmCalls) (stderr : String), w.firstInstall = .err stderr →
        strContains stderr lockInProgressMsg = false →
        install_tenant w = (.ret (false, stderr), [.install]))
    ∧ (∀ (w : HelmCalls) (stderr : String) (revs : List Nat) (rev : Nat)
        (out : String),
        w.firstInstall = .err stderr →
        strContains stderr lockInProgressMsg = true →
        w.history = .ok revs → revs.getLast? = some rev →
        w.rollback = .ok () → w.retryInstall = .ok out →
        install_tenant w
          = (.ret (true, out), [.install, .historyQuery, .rollbackTo rev, .retry]))
    ∧ (∀ (w : HelmCalls) (stderr : String) (revs : List Nat) (rev : Nat)
        (e2 : String),
        w.firstInstall = .err stderr →
        strContains stderr lockInProgressMsg = true →
        w.history = .ok revs → revs.getLast? = some rev →
        w.rollback = .ok () → w.retryInstall = .err e2 →
        install_tenant w
          = (.raised ("CalledProcessError: " ++ e2),
             [.install, .historyQuery, .rollbackTo rev, .retry]))
    ∧ (∀ (st : Settings) (w : StepWorld) (suffix dbPw : String) (now : Nat)
        (db : Db) (i : Intent) (e : String),
        dedupHit db i = false →
        findTenantBySub db i.stripeSubscriptionId = none →
        db.subscriptions.any
            (fun s => s.stripeSubscriptionId == i.stripeSubscriptionId) = false →
        namespace_exists w.nsRead = true →
        w.dbExists = true →
        w.releaseExists = false →
        (install_tenant w.helm).1 = .raised e →
        ∃ t, (provision_tenant st w suffix dbPw now [] db i).result
            = .ret (some t, some e)
          ∧ t.status = TenantStatus.failed
          ∧ ∃ l, l ∈ (provision_tenant st w suffix dbPw now [] db i).db.logs
              ∧ l.status = "failed" ∧ l.errorDetails = some e) := by
  refine ⟨?_, ?_, ?_, ?_, ?_⟩
  · intro w out h
    unfold install_tenant
    rw [h]
  · intro w stderr h hlock
    unfold install_tenant
    rw [h]
    simp [hlock]
  · intro w stderr revs rev out h hlock hh hl hr hretry
    unfold install_tenant
    rw [h]
    simp [hlock, hh, hl, hr, hretry]
  · intro w stderr revs rev e2 h hlock hh hl hr hretry
    unfold install_tenant
    rw [h]
    simp [hlock, hh, hl, hr, hretry]
  · intro st w suffix dbPw now db i e hg hf hdup hns hdbe hrel hinst
    unfold provision_tenant
    simp only [hg, Bool.false_eq_true, if_false, hf]
    unfold new_tenant_flow
    simp only [List.append_nil, hdup, Bool.false_eq_true, if_false]
    simp only [try_steps, ensure_namespace, ensure_database,
      ensure_helm_release, hns, hdbe, hrel, hinst, Bool.false_eq_true,
      if_true, if_false, finish_flow, newFail]
    refine ⟨_, rfl, rfl, ?_⟩
    refine ⟨{ id := nextLogId db, tenantId := nextTenantId db,
              action := ProvisioningAction.createAction, status := "failed",
              message := "Starting provisioning for " ++ (st.namespaceStem ++ "-" ++ suffix),
              errorDetails := some e, stripeEventId := i.stripeEventId,
              completedAt := some now }, ?_, rfl, rfl⟩
    exact mem_replaceLog _
      { id := nextLogId db, tenantId := nextTenantId db,
        action := ProvisioningAction.createAction, status := "started",
        message := "Starting provisioning for " ++ (st.namespaceStem ++ "-" ++ suffix),
        errorDetails := none, stripeEventId := i.stripeEventId,
        completedAt := none } _ (by simp) rfl

/-- C6 witness: the amended theorem applied at the four helm-CLI fixtures
and, for the orchestrator conjunct, at the stale-lock world with failing
retry. -/
theorem C6_lock_recovery_witness :
    install_tenant okWorld.helm = (.ret (true, "deployed"), [.install])
    ∧ install_tenant plainFailHelm
        = (.ret (false, "chart not found"), [.install])
    ∧ install_tenant lockedHelmOk
        = (.ret (true, "recovered"),
           [.install, .historyQuery, .rollbackTo 2, .retry])
    ∧ install_tenant lockedHelm
        = (.raised ("CalledProcessError: boom: chart invalid"),
           [.install, .historyQuery, .rollbackTo 3, .retry])
    ∧ ∃ t, (provision_tenant defaultSettings lockWorld ("f0f0f0f0") ("pw") 8 []
          emptyDb intent1).result
          = .ret (some t, some ("CalledProcessError: boom: chart invalid"))
        ∧ t.status = TenantStatus.failed
        ∧ ∃ l, l ∈ (provision_tenant defaultSettings lockWorld ("f0f0f0f0") ("pw") 8 []
              emptyDb intent1).db.logs
            ∧ l.status = "failed"
            ∧ l.errorDetails = some ("CalledProcessError: boom: chart invalid") :=
  ⟨C6_lock_recovery.1 okWorld.helm ("deployed") rfl,
   C6_lock_recovery.2.1 plainFailHelm ("chart not found") rfl (by decide),
   C6_lock_recovery.2.2.1 lockedHelmOk lockInProgressMsg [2] 2 ("recovered")
     rfl (by decide) rfl (by decide) rfl rfl,
   C6_lock_recovery.2.2.2.1 lockedHelm lockInProgressMsg [3] 3
     ("boom: chart invalid") rfl (by decide) rfl (by decide) rfl rfl,
   C6_lock_recovery.2.2.2.2 defaultSettings lockWorld ("f0f0f0f0") ("pw") 8
     emptyDb intent1 ("CalledProcessError: boom: chart invalid")
     (by decide) (by decide) (by decide) (by decide) rfl rfl (by decide)⟩

/-- A resource state that already holds its namespace is left unchanged by
the ensure-namespace effect. -/
theorem ensureNamespaceState_stable (s : ResState) (ns : String)
    (h : ns ∈ s.namespaces) : ensureNamespaceState s ns = s := by
  unfold ensureNamespaceState
  simp [h]

/-- A resource state that already holds its database is left unchanged by
the ensure-database effect. -/
theorem ensureDatabaseState_stable (s : ResState) (dbn : String)
    (h : dbn ∈ s.databases) : ensureDatabaseState s dbn = s := by
  unfold ensureDatabaseState
  simp [h]

/-- A resource state that already holds its release is left unchanged by
the ensure-release effect. -/
theorem ensureReleaseState_stable (s : ResState) (rel relNs : String)
    (h : (rel, relNs) ∈ s.releases) :
    ensureReleaseState s rel relNs = s := by
  unfold ensureReleaseState
  simp [h]

/-- C7: namespace, database and release creation are idempotent.  Against
the honestly answering world derived from any resource state, each ensure
step succeeds; invoking it a second time with identical arguments (i.e.
against the state its first invocation produced) succeeds again, issues
only the existence check — no namespace create call, no database creation
statement, no release install — and leaves the resource state exactly as
it was.  Additionally, the namespace create call treats the Kubernetes
409 conflict (already exists) response as success. -/
theorem C7_ensure_idempotent :
    ∀ (s : ResState) (ns dbn dbu rel relNs dom plan app out : String),
      (ensure_namespace (honestWorld s ns dbn rel relNs out) ns).1 = .ok ()
      ∧ ensure_namespace
          (honestWorld (ensureNamespaceState s ns) ns dbn rel relNs out) ns
          = (.ok (), [.nsCheck ns])
      ∧ ensureNamespaceState (ensureNamespaceState s ns) ns
          = ensureNamespaceState s ns
      ∧ (ensure_database (honestWorld s ns dbn rel relNs out) dbn dbu).1 = .ok ()
      ∧ ensure_database
          (honestWorld (ensureDatabaseState s dbn) ns dbn rel relNs out) dbn dbu
          = (.ok (), [.dbCheck dbn])
      ∧ ensureDatabaseState (ensureDatabaseState s dbn) dbn
          = ensureDatabaseState s dbn
      ∧ (ensure_helm_release (honestWorld s ns dbn rel relNs out)
          rel relNs dom plan dbn dbu app).1 = .ok ()
      ∧ ensure_helm_release
          (honestWorld (ensureReleaseState s rel relNs) ns dbn rel relNs out)
          rel relNs dom plan dbn dbu app
          = (.ok (), [.helmCheck rel relNs])
      ∧ ensureReleaseState (ensureReleaseState s rel relNs) rel relNs
          = ensureReleaseState s rel relNs
      ∧ create_namespace (.apiError 409) = true := by
  intro s ns dbn dbu rel relNs dom plan app out
  have hns : ns ∈ (ensureNamespaceState s ns).namespaces := by
    unfold ensureNamespaceState
    by_cases h : ns ∈ s.namespaces <;> simp [h]
  have hdb : dbn ∈ (ensureDatabaseState s dbn).databases := by
    unfold ensureDatabaseState
    by_cases h : dbn ∈ s.databases <;> simp [h]
  have hrl : (rel, relNs) ∈ (ensureReleaseState s rel relNs).releases := by
    unfold ensureReleaseState
    by_cases h : (rel, relNs) ∈ s.releases <;> simp [h]
  refine ⟨?_, ?_, ensureNamespaceState_stable _ ns hns, ?_, ?_,
    ensureDatabaseState_stable _ dbn hdb, ?_, ?_,
    ensureReleaseState_stable _ rel relNs hrl, rfl⟩
  · by_cases h : ns ∈ s.namespaces <;>
      simp [ensure_namespace, honestWorld, namespace_exists, create_namespace, h]
  · simp [ensure_namespace, honestWorld, namespace_exists, hns]
  · by_cases h : dbn ∈ s.databases <;>
      simp [ensure_database, honestWorld, h]
  · simp [ensure_database, honestWorld, hdb]
  · by_cases h : (rel, relNs) ∈ s.releases <;>
      simp [ensure_helm_release, honestWorld, install_tenant, h]
  · simp [ensure_helm_release, honestWorld, hrl]

/-- A checkout event carrying an event id for a fresh subscription. -/
def intent4 : Intent :=
  { userId := 9, email := "c@d.ef", plan := "pro",
    stripeSubscriptionId := "sub_4", stripeCustomerId := "cus_4",
    stripeEventId := some "evt_4" }

/-- The first committed snapshot of the new-tenant path is always the
intake commit (tenant `pending`, subscription, log `started`). -/
theorem finish_flow_commits_head (now : Nat) (dbA dbB : Db) (t1 : TenantRec)
    (log0 : LogRec) (rel : String)
    (r : Except (String × List ExtCall) (Option String × List ExtCall)) :
    (finish_flow now dbA dbB t1 log0 rel r).commits.head? = some dbA := by
  cases r with
  | error p => obtain ⟨e, cs⟩ := p; rfl
  | ok p => obtain ⟨pw, cs⟩ := p; rfl

/-- C8 counterexample: running a new-tenant attempt whose first external
step fails, the first durable commit already records the event id in a
ProvisioningLog whose status is `started` — the event-processed check
answers `true` at a committed state in which the attempt has not run to
completion; and after the failed attempt the check still answers `true`
although provisioning only ever reached `failed`. -/
theorem C8_counterexample :
    ((provision_tenant defaultSettings nsFailWorld ("cafe0007") ("pw") 9 []
        emptyDb intent4).commits.head?.map
        (fun d => (event_processed d ("evt_4"), d.logs.map (fun l => l.status))))
      = some (true, ["started"])
    ∧ event_processed
        (provision_tenant defaultSettings nsFailWorld ("cafe0007") ("pw") 9 []
          emptyDb intent4).db ("evt_4") = true
    ∧ ((provision_tenant defaultSettings nsFailWorld ("cafe0007") ("pw") 9 []
        emptyDb intent4).db.logs.map (fun l => l.status)) = ["failed"] := by
  refine ⟨?_, ?_, ?_⟩ <;> decide

/-- C8 (amended): the event-processed check tests mere existence of a log
row carrying the event id, and such a row exists from the very first
commit of an attempt — with status `started`, before any external step has
run — so the check answers `true` for any event whose attempt has started
and committed its intake records, not only for attempts that ran to
completion. -/
theorem C8_dedup_marks_started :
    (∀ (db : Db) (eid : String),
        event_processed db eid = true
          ↔ ∃ l, l ∈ db.logs ∧ l.stripeEventId = some eid)
    ∧ (∀ (st : Settings) (w : StepWorld) (suffix dbPw : String) (now : Nat)
        (concurrent : List SubscriptionRec) (db : Db) (i : Intent)
        (eid : String),
        i.stripeEventId = some eid →
        (db.subscriptions ++ concurrent).any
            (fun s => s.stripeSubscriptionId == i.stripeSubscriptionId) = false →
        ∃ d0, (new_tenant_flow st w suffix dbPw now concurrent db i).commits.head?
            = some d0
          ∧ event_processed d0 eid = true
          ∧ ∃ l, l ∈ d0.logs ∧ l.stripeEventId = some eid
              ∧ l.status = "started") := by
  constructor
  · intro db eid
    simp [event_processed, List.any_eq_true]
  · intro st w suffix dbPw now concurrent db i eid hei hdup
    unfold new_tenant_flow
    simp only [hdup, Bool.false_eq_true, if_false]
    refine ⟨_, finish_flow_commits_head _ _ _ _ _ _ _, ?_, ?_⟩
    · simp [event_processed, hei]
    · refine ⟨{ id := nextLogId db, tenantId := nextTenantId db,
                action := ProvisioningAction.createAction, status := "started",
                message := "Starting provisioning for "
                  ++ (st.namespaceStem ++ "-" ++ suffix),
                errorDetails := none, stripeEventId := i.stripeEventId,
                completedAt := none }, by simp, by rw [hei], rfl⟩

/-- C8 witness: the amended theorem applied at the recorded-event store
and at a fresh run of the new-tenant path. -/
theorem C8_dedup_marks_started_witness :
    (event_processed activeDb ("evt_3") = true
      ↔ ∃ l, l ∈ activeDb.logs ∧ l.stripeEventId = some "evt_3")
    ∧ intent4.stripeEventId = some "evt_4"
    ∧ ((emptyDb.subscriptions ++ []).any
        (fun s => s.stripeSubscriptionId == intent4.stripeSubscriptionId) = false)
    ∧ ∃ d0, (new_tenant_flow defaultSettings nsFailWorld ("cafe0008") ("pw") 9 []
          emptyDb intent4).commits.head? = some d0
        ∧ event_processed d0 ("evt_4") = true
        ∧ ∃ l, l ∈ d0.logs ∧ l.stripeEventId = some "evt_4"
            ∧ l.status = "started" :=
  ⟨C8_dedup_marks_started.1 activeDb ("evt_3"), rfl, by decide,
    C8_dedup_marks_started.2 defaultSettings nsFailWorld ("cafe0008") ("pw") 9 []
      emptyDb intent4 ("evt_4") rfl (by decide)⟩

/-- A world whose namespace, database and release all already exist, and
whose pod lookup times out, so the installer step yields `None`. -/
def installerNoneWorld : StepWorld :=
  { okWorld with
    nsRead := .found, dbExists := true, releaseExists := true,
    podStdout := .error ("timeout") }

/-- C10: `_run_ca_installer` returns `None` — not an error — whenever the
pod lookup raises, finds no pod, the in-pod command raises, or the command
exits non-zero; on a clean exit it scans stdout and returns the last
whitespace-delimited token of the first line containing the password
marker; and the orchestrator treats a `None` result as success, finishing
the attempt `active` with the sentinel credential stored. -/
theorem C10_installer_none_tolerated :
    (∀ (w : StepWorld) (ns rel m : String),
        w.podStdout = .error m → (run_ca_installer w ns rel).1 = none)
    ∧ (∀ (w : StepWorld) (ns rel out : String),
        w.podStdout = .ok out → (stripWs out == "") = true →
        (run_ca_installer w ns rel).1 = none)
    ∧ (∀ (w : StepWorld) (ns rel out m : String),
        w.podStdout = .ok out → (stripWs out == "") = false →
        w.execResult = .error m →
        (run_ca_installer w ns rel).1 = none)
    ∧ (∀ (w : StepWorld) (ns rel out sout : String) (rc : Int),
        w.podStdout = .ok out → (stripWs out == "") = false →
        w.execResult = .ok (rc, sout) → rc ≠ 0 →
        (run_ca_installer w ns rel).1 = none)
    ∧ (∀ (w : StepWorld) (ns rel out sout : String),
        w.podStdout = .ok out → (stripWs out == "") = false →
        w.execResult = .ok (0, sout) →
        (run_ca_installer w ns rel).1 = scanInstallerOutput sout)
    ∧ (∀ (sout line : String),
        ((linesOf sout).find?
            (fun l => strContains (lowerStr l) ("password"))) = some line →
        scanInstallerOutput sout = (splitWs line).getLast?)
    ∧ (∀ (st : Settings) (w : StepWorld) (suffix dbPw : String) (now : Nat)
        (db : Db) (i : Intent) (cs : List ExtCall),
        dedupHit db i = false →
        findTenantBySub db i.stripeSubscriptionId = none →
        db.subscriptions.any
            (fun s => s.stripeSubscriptionId == i.stripeSubscriptionId) = false →
        namespace_exists w.nsRead = true →
        w.dbExists = true →
        w.releaseExists = true →
        run_ca_installer w (st.namespaceStem ++ "-" ++ suffix)
            (st.namespaceStem ++ "-" ++ suffix) = (none, cs) →
        ∃ t, (provision_tenant st w suffix dbPw now [] db i).result
            = .ret (some t, none)
          ∧ t.status = TenantStatus.active
          ∧ t.caAdminPassword = some ("Installer not completed")) := by
  refine ⟨?_, ?_, ?_, ?_, ?_, ?_, ?_⟩
  · intro w ns rel m h
    unfold run_ca_installer
    rw [h]
  · intro w ns rel out h ht
    unfold run_ca_installer
    rw [h]
    simp [ht]
  · intro w ns rel out m h ht hx
    unfold run_ca_installer
    rw [h]
    simp [ht, hx]
  · intro w ns rel out sout rc h ht hx hrc
    unfold run_ca_installer
    rw [h]
    simp [ht, hx, hrc]
  · intro w ns rel out sout h ht hx
    unfold run_ca_installer
    rw [h]
    simp [ht, hx]
  · intro sout line hfind
    unfold scanInstallerOutput
    rw [hfind]
  · intro st w suffix dbPw now db i cs hg hf hdup hns hdbe hrel hinst
    unfold provision_tenant
    simp only [hg, Bool.false_eq_true, if_false, hf]
    unfold new_tenant_flow
    simp only [List.append_nil, hdup, Bool.false_eq_true, if_false]
    simp only [try_steps, ensure_namespace, ensure_database,
      ensure_helm_release, hns, hdbe, hrel, hinst, Bool.false_eq_true,
      if_true, if_false, finish_flow]
    exact ⟨_, rfl, rfl, rfl⟩

/-- A world whose pod lookup returns a blank name (no pod scheduled). -/
def emptyPodWorld : StepWorld := { okWorld with podStdout := .ok ("  ") }

/-- A world whose in-pod command raises (e.g. TimeoutExpired). -/
def execErrWorld : StepWorld :=
  { okWorld with execResult := .error ("TimeoutExpired") }

/-- A world whose in-pod command exits non-zero. -/
def rcFailWorld : StepWorld :=
  { okWorld with execResult := .ok (1, "error output") }

/-- C10 witness: the theorem applied at the pod-lookup-raises,
blank-pod-name, command-raises, non-zero-exit and clean-exit worlds, and
at a full provisioning run in which the installer yields `None` yet the
tenant ends `active` with the sentinel credential. -/
theorem C10_installer_none_tolerated_witness :
    (run_ca_installer installerNoneWorld ("n") ("r")).1 = none
    ∧ (run_ca_installer emptyPodWorld ("n") ("r")).1 = none
    ∧ (run_ca_installer execErrWorld ("n") ("r")).1 = none
    ∧ (run_ca_installer rcFailWorld ("n") ("r")).1 = none
    ∧ (run_ca_installer okWorld ("n") ("r")).1
        = scanInstallerOutput ("admin password s3cret")
    ∧ scanInstallerOutput ("admin password s3cret")
        = (splitWs ("admin password s3cret")).getLast?
    ∧ scanInstallerOutput ("admin password s3cret") = some ("s3cret")
    ∧ ∃ t, (provision_tenant defaultSettings installerNoneWorld ("dada0009")
          ("pw") 11 [] emptyDb intent1).result = .ret (some t, none)
        ∧ t.status = TenantStatus.active
        ∧ t.caAdminPassword = some ("Installer not completed") :=
  ⟨C10_installer_none_tolerated.1 installerNoneWorld ("n") ("r") ("timeout") rfl,
   C10_installer_none_tolerated.2.1 emptyPodWorld ("n") ("r") ("  ") rfl (by decide),
   C10_installer_none_tolerated.2.2.1 execErrWorld ("n") ("r") ("pod-1")
     ("TimeoutExpired") rfl (by decide) rfl,
   C10_installer_none_tolerated.2.2.2.1 rcFailWorld ("n") ("r") ("pod-1")
     ("error output") 1 rfl (by decide) rfl (by decide),
   C10_installer_none_tolerated.2.2.2.2.1 okWorld ("n") ("r") ("pod-1")
     ("admin password s3cret") rfl (by decide) rfl,
   C10_installer_none_tolerated.2.2.2.2.2.1 ("admin password s3cret")
     ("admin password s3cret") (by decide),
   by decide,
   C10_installer_none_tolerated.2.2.2.2.2.2 defaultSettings installerNoneWorld
     ("dada0009") ("pw") 11 emptyDb intent1
     [ExtCall.podLookup ("tenant-dada0009") ("app=tenant-dada0009")]
     (by decide) (by decide) (by decide) (by decide) rfl rfl (by decide)⟩

end CASaas
